import Mathlib

/-!
# Verification of the maplibre-gl-starfield celestial dome layer

A shallow embedding, in Lean 4, of the rendering core of the
`maplibre-gl-starfield` package (`src/layer.ts` and the GLSL shader sources):

* `computeStarFade` — the twilight fade curve (`src/layer.ts`);
* the `MaplibreStarfieldLayer` uniform-state machine (`onAdd`, `setSunPosition`,
  `setSunEnabled`, `setSunIntensity`, `setSunSize`, the asynchronous galaxy
  texture load, and the private helpers `applyStarFade` / `setFadeUniforms` /
  `applySunPosition`);
* the camera-alignment computation performed in `render` (Three.js
  `Matrix4.invert` / `multiplyMatrices`, translation stripping);
* `sunDirectionFromAngles` and `sunSizeToCos` (celestial math helpers);
* the star generation loop in `onAdd`;
* the simplex-noise kernel `snoise`, the fractal sum `fbm`, and the sun
  fragment shader `main` (the `sun.frag.glsl` variant with
  `brightness-to-color.glsl`).

JavaScript numbers are modelled as exact rationals where the code is purely
rational arithmetic (the fade curve and the layer state), and as real numbers
where the code calls transcendental functions (`Math.cos`, `Math.acos`,
`exp`, `pow`, the GLSL shader math).  Three.js `Matrix4` values are modelled
as `Matrix (Fin 4) (Fin 4) ℚ`; the column-major element array of Three.js puts
the translation components at indices 12, 13, 14, i.e. at rows 0, 1, 2 of
column 3 of the mathematical matrix.
-/

namespace Starfield

/-! ## CelestialMath: the twilight fade curve (`computeStarFade`) -/

/-- `computeStarFade` from `src/layer.ts`:

```
function computeStarFade(altitudeDeg: number): number {
  if (altitudeDeg >= 0) return 0.0;
  if (altitudeDeg <= -18) return 1.0;
  const t = -altitudeDeg / 18; // 0..1
  return t * t * (3 - 2 * t);
}
```
-/
def computeStarFade (altitudeDeg : ℚ) : ℚ :=
  if 0 ≤ altitudeDeg then 0
  else if altitudeDeg ≤ -18 then 1
  else
    let t := -altitudeDeg / 18
    t * t * (3 - 2 * t)

/-! ## The layer uniform-state machine

`MaplibreStarfieldLayer` keeps private option fields and, after `onAdd`, a
Three.js scene whose materials hold the live uniform values.  The state below
records the private fields together with the uniform values held by the star,
galaxy and sun materials.  The galaxy material is created asynchronously by
the `TextureLoader` callback in `onAdd`; until then `galaxyFadeU = none`.
The callback closes over `const fade = initialFade`, so the fade the galaxy
material is created with is recorded at `onAdd` time in
`pendingGalaxyFade`. -/

structure LayerState where
  sunEnabled : Bool
  autoFadeStars : Bool
  sunAzimuth : ℚ
  sunAltitude : ℚ
  sunSize : ℚ
  sunIntensity : ℚ
  /-- `starMaterial.uniforms['uFade'].value` (the star material always exists
  after `onAdd`). -/
  starFadeU : ℚ
  /-- `galaxyMaterial?.uniforms['uFade'].value`; `none` while the galaxy
  material does not exist (no URL configured, or texture not yet loaded). -/
  galaxyFadeU : Option ℚ
  /-- The `fade` value captured by the `loader.load` callback closure in
  `onAdd` (`none` when no galaxy URL was configured). -/
  pendingGalaxyFade : Option ℚ
  /-- `sunMesh.visible`. -/
  sunVisible : Bool
  /-- `sunMaterial.uniforms['uSunIntensity'].value`. -/
  sunIntensityU : ℚ

/-- Construction options relevant to the uniform state (`sunColor`,
`starCount`, … omitted: they never interact with the fade machinery). -/
structure LayerOptions where
  sunEnabled : Bool
  autoFadeStars : Bool
  sunAzimuth : ℚ
  sunAltitude : ℚ
  sunSize : ℚ
  sunIntensity : ℚ
  hasGalaxyUrl : Bool

/-- `setFadeUniforms(fade)`: writes the star material's `uFade` and, when the
galaxy material exists, its `uFade` as well. -/
def setFadeUniforms (st : LayerState) (fade : ℚ) : LayerState :=
  { st with starFadeU := fade, galaxyFadeU := st.galaxyFadeU.map fun _ => fade }

/-- `applyStarFade()`: fade 1.0 when the sun is disabled or auto-fade is off,
otherwise `computeStarFade(this._sunAltitude)`. -/
def applyStarFade (st : LayerState) : LayerState :=
  if !st.sunEnabled || !st.autoFadeStars then setFadeUniforms st 1
  else setFadeUniforms st (computeStarFade st.sunAltitude)

/-- `setSunPosition(azimuth, altitude)`: stores the angles, re-derives the sun
direction uniform (`applySunPosition`, not tracked here — it writes only
`uSunDirection`), then `applyStarFade`. -/
def setSunPosition (st : LayerState) (azimuth altitude : ℚ) : LayerState :=
  applyStarFade { st with sunAzimuth := azimuth, sunAltitude := altitude }

/-- `setSunEnabled(enabled)`: stores the flag, toggles the sun mesh, and
forces fade 1.0 when disabling, else `applyStarFade`. -/
def setSunEnabled (st : LayerState) (enabled : Bool) : LayerState :=
  let st1 := { st with sunEnabled := enabled, sunVisible := enabled }
  if !enabled then setFadeUniforms st1 1 else applyStarFade st1

/-- `setSunIntensity(intensity)`: stores the field and writes the
`uSunIntensity` uniform; the fade uniforms are not touched. -/
def setSunIntensity (st : LayerState) (intensity : ℚ) : LayerState :=
  { st with sunIntensity := intensity, sunIntensityU := intensity }

/-- `setSunSize(size)`: stores the field and writes the `uSunAngularRadius`
uniform (`sunSizeToCos(size)`, a real number not tracked in this rational
state); the fade uniforms are not touched. -/
def setSunSize (st : LayerState) (size : ℚ) : LayerState :=
  { st with sunSize := size }

/-- The state set up by `onAdd`: `initialFade` is computed once, the star
material is created with it, and when a galaxy URL is configured the loader
callback captures that same `initialFade` for the material it will create
later. -/
def onAddState (opts : LayerOptions) : LayerState :=
  let initialFade :=
    if opts.sunEnabled && opts.autoFadeStars then computeStarFade opts.sunAltitude
    else 1
  { sunEnabled := opts.sunEnabled
    autoFadeStars := opts.autoFadeStars
    sunAzimuth := opts.sunAzimuth
    sunAltitude := opts.sunAltitude
    sunSize := opts.sunSize
    sunIntensity := opts.sunIntensity
    starFadeU := initialFade
    galaxyFadeU := none
    pendingGalaxyFade := if opts.hasGalaxyUrl then some initialFade else none
    sunVisible := opts.sunEnabled
    sunIntensityU := opts.sunIntensity }

/-- Completion of the asynchronous galaxy texture load: the `loader.load`
callback creates the galaxy material with the *captured* fade.  It fires at
most once, and only when a URL was configured. -/
def galaxyTextureLoaded (st : LayerState) : LayerState :=
  match st.pendingGalaxyFade, st.galaxyFadeU with
  | some f, none => { st with galaxyFadeU := some f }
  | _, _ => st

/-- The fade value the spec derives from the sun state: `computeStarFade` of
the altitude when the sun is enabled and auto-fade is on, else `1`. -/
def expectedFade (st : LayerState) : ℚ :=
  if st.sunEnabled && st.autoFadeStars then computeStarFade st.sunAltitude else 1

/-- The fade invariant claimed by the spec: the star uniform, and the galaxy
uniform whenever the galaxy material exists, hold the derived fade value. -/
def fadeInvariant (st : LayerState) : Prop :=
  st.starFadeU = expectedFade st ∧ ∀ g ∈ st.galaxyFadeU, g = expectedFade st

/-! ## CameraAligner: the per-frame matrix computation in `render`

Three.js `Matrix4` values are modelled as `Matrix (Fin 4) (Fin 4) ℚ` (row
index first).  Three.js stores elements column-major, so `elements[12..14]`
are the entries at rows `0,1,2` of column `3` — the translation column.
`multiplyMatrices(A, B)` is the mathematical product `A * B`. -/

abbrev Mat4 := Matrix (Fin 4) (Fin 4) ℚ

/-- Three.js `Matrix4.invert()`: computes the cofactor determinant; when it is
`0` the matrix is set to the zero matrix, otherwise to `(1/det) · adjugate`
(which is the true inverse). -/
def m4invert (M : Mat4) : Mat4 :=
  if M.det = 0 then 0 else M.det⁻¹ • M.adjugate

/-- The translation-stripping step of `render`:
`e[12] = 0; e[13] = 0; e[14] = 0` on the column-major element array, i.e.
zeroing rows `0,1,2` of column `3`. -/
def zeroTranslation (M : Mat4) : Mat4 :=
  Matrix.of fun i j => if j = 3 ∧ i ≠ 3 then 0 else M i j

/-- The effective view matrix computed by `render`:
`MV = PInv * MVP` followed by translation stripping. -/
def renderEffectiveView (P MVP : Mat4) : Mat4 :=
  zeroTranslation (m4invert P * MVP)

/-- The camera projection matrix written by `render`:
`camera.projectionMatrix.multiplyMatrices(P, MV)`. -/
def renderCameraProj (P MVP : Mat4) : Mat4 :=
  P * renderEffectiveView P MVP

/-- The `render(gl, options)` callback.  `ready` models the guard
`!this.renderer || !this.scene || !this.camera` (false ⇒ early return, no
draw).  The result is the unchanged layer state paired with the camera
projection matrix the scene is drawn with (`none` when no draw call is
issued).  There is no other conditional: `renderer.render` is reached on
every ready frame. -/
def renderStep (st : LayerState) (ready : Bool) (P MVP : Mat4) :
    LayerState × Option Mat4 :=
  if ready then (st, some (renderCameraProj P MVP)) else (st, none)

/-! ## CelestialMath over ℝ: `sunDirectionFromAngles` and `sunSizeToCos` -/

/-- `const DEG2RAD = Math.PI / 180`. -/
noncomputable def DEG2RAD : ℝ := Real.pi / 180

/-- `sunDirectionFromAngles(azimuthDeg, altitudeDeg)` from `src/layer.ts`:
`[cos(alt)·sin(az), sin(alt), cos(alt)·cos(az)]` after degree→radian
conversion. -/
noncomputable def sunDirectionFromAngles (azimuthDeg altitudeDeg : ℝ) :
    ℝ × ℝ × ℝ :=
  let az := azimuthDeg * DEG2RAD
  let alt := altitudeDeg * DEG2RAD
  (Real.cos alt * Real.sin az, Real.sin alt, Real.cos alt * Real.cos az)

/-- The local `angularRadiusDeg` of `sunSizeToCos`:
`(size / 100) * 2.0`. -/
noncomputable def sunSizeAngularRadiusDeg (size : ℝ) : ℝ :=
  size / 100 * 2

/-- `sunSizeToCos(size)` from `src/layer.ts`:
`Math.cos(angularRadiusDeg * DEG2RAD)`. -/
noncomputable def sunSizeToCos (size : ℝ) : ℝ :=
  Real.cos (sunSizeAngularRadiusDeg size * DEG2RAD)

/-! ## StarField: the generation loop in `onAdd`

Each iteration of the loop consumes four `Math.random()` draws in order:
`theta`, `phi`, the size draw, the opacity draw.  The draws are modelled as a
stream `u : ℕ → ℝ` of values in `[0, 1)`; iteration `i` uses draws
`u (4*i), …, u (4*i+3)`. -/

structure StarPoint where
  position : ℝ × ℝ × ℝ
  size : ℝ
  opacity : ℝ

/-- One iteration of the star loop:

```
const theta = Math.random() * Math.PI * 2;
const phi = Math.acos(2 * Math.random() - 1);
positions[i3]     = Math.sin(phi) * Math.cos(theta);
positions[i3 + 1] = Math.sin(phi) * Math.sin(theta);
positions[i3 + 2] = Math.cos(phi);
starSizes[i] = size * (0.4 + Math.random());
opacities[i] = 0.15 + Math.random() * 0.85;
```
-/
noncomputable def generateStar (baseSize u1 u2 u3 u4 : ℝ) : StarPoint :=
  let theta := u1 * Real.pi * 2
  let phi := Real.arccos (2 * u2 - 1)
  { position :=
      (Real.sin phi * Real.cos theta, Real.sin phi * Real.sin theta,
        Real.cos phi)
    size := baseSize * (0.4 + u3)
    opacity := 0.15 + u4 * 0.85 }

/-- The whole loop `for (let i = 0; i < count; i++)`. -/
noncomputable def generateStars (count : ℕ) (baseSize : ℝ) (u : ℕ → ℝ) :
    List StarPoint :=
  (List.range count).map fun i =>
    generateStar baseSize (u (4 * i)) (u (4 * i + 1)) (u (4 * i + 2))
      (u (4 * i + 3))

/-! ## GLSL primitives

`vec3`/`vec4` with componentwise GLSL built-ins.  `step(edge, x)` is `0.0`
when `x < edge` and `1.0` otherwise; `clamp(x, a, b) = min(max(x, a), b)`;
`smoothstep` is the usual Hermite ramp; `atan(y, x)` is the two-argument
arctangent with range `(-π, π]`, i.e. the argument of the complex number
`x + y·i`. -/

structure V3 where
  x : ℝ
  y : ℝ
  z : ℝ

structure V4 where
  x : ℝ
  y : ℝ
  z : ℝ
  w : ℝ

noncomputable def glslFloor (x : ℝ) : ℝ := (Int.floor x : ℝ)

noncomputable def glslStep (edge x : ℝ) : ℝ := if x < edge then 0 else 1

noncomputable def glslClamp (x a b : ℝ) : ℝ := min (max x a) b

noncomputable def glslSmoothstep (e0 e1 x : ℝ) : ℝ :=
  let t := glslClamp ((x - e0) / (e1 - e0)) 0 1
  t * t * (3 - 2 * t)

noncomputable def glslAtan (y x : ℝ) : ℝ := Complex.arg ⟨x, y⟩

noncomputable def v3add (a b : V3) : V3 := ⟨a.x + b.x, a.y + b.y, a.z + b.z⟩

noncomputable def v3sub (a b : V3) : V3 := ⟨a.x - b.x, a.y - b.y, a.z - b.z⟩

noncomputable def v3smul (k : ℝ) (a : V3) : V3 := ⟨k * a.x, k * a.y, k * a.z⟩

noncomputable def v3dot (a b : V3) : ℝ := a.x * b.x + a.y * b.y + a.z * b.z

noncomputable def v3cross (a b : V3) : V3 :=
  ⟨a.y * b.z - a.z * b.y, a.z * b.x - a.x * b.z, a.x * b.y - a.y * b.x⟩

noncomputable def v3len (a : V3) : ℝ := Real.sqrt (v3dot a a)

noncomputable def v3normalize (a : V3) : V3 :=
  ⟨a.x / v3len a, a.y / v3len a, a.z / v3len a⟩

/-- Componentwise product of two `vec3` (GLSL `*` on vectors). -/
noncomputable def v3mul (a b : V3) : V3 := ⟨a.x * b.x, a.y * b.y, a.z * b.z⟩

/-! ## NoiseKernel: `snoise` and `fbm`

A literal translation of the simplex-noise GLSL in `src/layer.ts`
(`mod289`, `perm`, `taylorInvSqrt`, `snoise`), swizzles expanded
componentwise. -/

/-- `mod289(x) = x - floor(x * (1.0 / 289.0)) * 289.0`, one component. -/
noncomputable def mod289c (x : ℝ) : ℝ := x - glslFloor (x * (1 / 289)) * 289

/-- `perm(x) = mod289(((x * 34.0) + 10.0) * x)`, one component. -/
noncomputable def permc (x : ℝ) : ℝ := mod289c (((x * 34) + 10) * x)

/-- `tis(r) = 1.79284291400159 - 0.85373472095314 * r` (Taylor inverse
square root), one component. -/
noncomputable def tisc (r : ℝ) : ℝ := 1.79284291400159 - 0.85373472095314 * r

/-- `snoise(v)`: the simplex-noise kernel from `SUN_FRAGMENT_SHADER` in
`src/layer.ts`, with all `vec3`/`vec4` swizzles written out componentwise. -/
noncomputable def snoise (v : V3) : ℝ :=
  let s := (v.x + v.y + v.z) * (1 / 3)
  let i : V3 := ⟨glslFloor (v.x + s), glslFloor (v.y + s), glslFloor (v.z + s)⟩
  let t := (i.x + i.y + i.z) * (1 / 6)
  let x0 : V3 := ⟨v.x - i.x + t, v.y - i.y + t, v.z - i.z + t⟩
  let g : V3 := ⟨glslStep x0.y x0.x, glslStep x0.z x0.y, glslStep x0.x x0.z⟩
  let l : V3 := ⟨1 - g.x, 1 - g.y, 1 - g.z⟩
  let i1 : V3 := ⟨min g.x l.z, min g.y l.x, min g.z l.y⟩
  let i2 : V3 := ⟨max g.x l.z, max g.y l.x, max g.z l.y⟩
  let x1 : V3 := ⟨x0.x - i1.x + 1 / 6, x0.y - i1.y + 1 / 6, x0.z - i1.z + 1 / 6⟩
  let x2 : V3 := ⟨x0.x - i2.x + 1 / 3, x0.y - i2.y + 1 / 3, x0.z - i2.z + 1 / 3⟩
  let x3 : V3 := ⟨x0.x - 0.5, x0.y - 0.5, x0.z - 0.5⟩
  let im : V3 := ⟨mod289c i.x, mod289c i.y, mod289c i.z⟩
  let q1 : V4 :=
    ⟨permc (im.z + 0), permc (im.z + i1.z), permc (im.z + i2.z),
      permc (im.z + 1)⟩
  let q2 : V4 :=
    ⟨permc (q1.x + im.y + 0), permc (q1.y + im.y + i1.y),
      permc (q1.z + im.y + i2.y), permc (q1.w + im.y + 1)⟩
  let p : V4 :=
    ⟨permc (q2.x + im.x + 0), permc (q2.y + im.x + i1.x),
      permc (q2.z + im.x + i2.x), permc (q2.w + im.x + 1)⟩
  let j : V4 :=
    ⟨p.x - 49 * glslFloor (p.x / 49), p.y - 49 * glslFloor (p.y / 49),
      p.z - 49 * glslFloor (p.z / 49), p.w - 49 * glslFloor (p.w / 49)⟩
  let xh : V4 :=
    ⟨glslFloor (j.x / 7), glslFloor (j.y / 7), glslFloor (j.z / 7),
      glslFloor (j.w / 7)⟩
  let yh : V4 :=
    ⟨j.x - 7 * xh.x, j.y - 7 * xh.y, j.z - 7 * xh.z, j.w - 7 * xh.w⟩
  let ox : V4 :=
    ⟨(xh.x * 2 + 0.5) / 7 - 1, (xh.y * 2 + 0.5) / 7 - 1,
      (xh.z * 2 + 0.5) / 7 - 1, (xh.w * 2 + 0.5) / 7 - 1⟩
  let oy : V4 :=
    ⟨(yh.x * 2 + 0.5) / 7 - 1, (yh.y * 2 + 0.5) / 7 - 1,
      (yh.z * 2 + 0.5) / 7 - 1, (yh.w * 2 + 0.5) / 7 - 1⟩
  let h : V4 :=
    ⟨1 - |ox.x| - |oy.x|, 1 - |ox.y| - |oy.y|, 1 - |ox.z| - |oy.z|,
      1 - |ox.w| - |oy.w|⟩
  let b0 : V4 := ⟨ox.x, ox.y, oy.x, oy.y⟩
  let b1 : V4 := ⟨ox.z, ox.w, oy.z, oy.w⟩
  let s0 : V4 :=
    ⟨glslFloor b0.x * 2 + 1, glslFloor b0.y * 2 + 1, glslFloor b0.z * 2 + 1,
      glslFloor b0.w * 2 + 1⟩
  let s1 : V4 :=
    ⟨glslFloor b1.x * 2 + 1, glslFloor b1.y * 2 + 1, glslFloor b1.z * 2 + 1,
      glslFloor b1.w * 2 + 1⟩
  let sh : V4 :=
    ⟨-glslStep h.x 0, -glslStep h.y 0, -glslStep h.z 0, -glslStep h.w 0⟩
  let a0 : V4 :=
    ⟨b0.x + s0.x * sh.x, b0.z + s0.z * sh.x, b0.y + s0.y * sh.y,
      b0.w + s0.w * sh.y⟩
  let a1 : V4 :=
    ⟨b1.x + s1.x * sh.z, b1.z + s1.z * sh.z, b1.y + s1.y * sh.w,
      b1.w + s1.w * sh.w⟩
  let p0 : V3 := ⟨a0.x, a0.y, h.x⟩
  let p1 : V3 := ⟨a0.z, a0.w, h.y⟩
  let p2 : V3 := ⟨a1.x, a1.y, h.z⟩
  let p3 : V3 := ⟨a1.z, a1.w, h.w⟩
  let p0n := v3smul (tisc (v3dot p0 p0)) p0
  let p1n := v3smul (tisc (v3dot p1 p1)) p1
  let p2n := v3smul (tisc (v3dot p2 p2)) p2
  let p3n := v3smul (tisc (v3dot p3 p3)) p3
  let m1 : V4 :=
    ⟨max (0.5 - v3dot x0 x0) 0, max (0.5 - v3dot x1 x1) 0,
      max (0.5 - v3dot x2 x2) 0, max (0.5 - v3dot x3 x3) 0⟩
  let m2 : V4 := ⟨m1.x * m1.x, m1.y * m1.y, m1.z * m1.z, m1.w * m1.w⟩
  105 *
    (m2.x * m2.x * v3dot p0n x0 + m2.y * m2.y * v3dot p1n x1 +
      m2.z * m2.z * v3dot p2n x2 + m2.w * m2.w * v3dot p3n x3)

/-- `fbm(p)` from `src/shaders/includes/fbm.glsl` (identical in
`src/layer.ts`): four octaves with the sequential in-place scalings
`p *= 2.02`, `p *= 2.03`, `p *= 2.01`, weights `0.5, 0.25, 0.125, 0.0625`,
normalised by `0.9375`. -/
noncomputable def fbm (p : V3) : ℝ :=
  let f1 := 0.5 * snoise p
  let pa := v3smul 2.02 p
  let f2 := f1 + 0.25 * snoise pa
  let pb := v3smul 2.03 pa
  let f3 := f2 + 0.125 * snoise pb
  let pc := v3smul 2.01 pb
  let f4 := f3 + 0.0625 * snoise pc
  f4 / 0.9375

/-- `brightnessToColor(b)` from
`src/shaders/includes/brightness-to-color.glsl`:
`b *= 0.25; return (vec3(b, b*b, b*b*b*b) / 0.25) * 0.8`. -/
noncomputable def brightnessToColor (b : ℝ) : V3 :=
  let c := b * 0.25
  ⟨c / 0.25 * 0.8, c * c / 0.25 * 0.8, c * c * c * c / 0.25 * 0.8⟩

/-! ## SunShader: `sun.frag.glsl` `main`

A staged translation of the fragment shader: the intermediate quantities
(`dir`, `sunDir`, `r`, `discBright`, `glowBright`, `totalBright`, the final
colour) each get a named definition with exactly the formula of the shader,
and `sunFragMain` assembles them with the two `discard` tests.  A `discard`
is modelled as `none`; an emitted fragment as `some (rgb, alpha)`. -/

structure SunUniforms where
  sunDirection : V3
  sunColor : V3
  sunIntensity : ℝ
  sunAngularRadius : ℝ

/-- `vec3 dir = normalize(vDirection)`. -/
noncomputable def fragDir (d : V3) : V3 := v3normalize d

/-- `vec3 sunDir = normalize(uSunDirection)`. -/
noncomputable def fragSunDir (u : SunUniforms) : V3 := v3normalize u.sunDirection

/-- `float cosAngle = dot(dir, sunDir)`. -/
noncomputable def fragCosAngle (u : SunUniforms) (d : V3) : ℝ :=
  v3dot (fragDir d) (fragSunDir u)

/-- `float angularDist = acos(clamp(cosAngle, -1.0, 1.0))`. -/
noncomputable def fragAngularDist (u : SunUniforms) (d : V3) : ℝ :=
  Real.arccos (glslClamp (fragCosAngle u d) (-1) 1)

/-- `float sunRadius = acos(clamp(uSunAngularRadius, -1.0, 1.0))`. -/
noncomputable def sunRadiusRaw (u : SunUniforms) : ℝ :=
  Real.arccos (glslClamp u.sunAngularRadius (-1) 1)

/-- The divisor `max(sunRadius, 0.001)` of the normalised radius. -/
noncomputable def sunRadiusDenom (u : SunUniforms) : ℝ :=
  max (sunRadiusRaw u) 0.001

/-- `float r = angularDist / max(sunRadius, 0.001)`. -/
noncomputable def fragR (u : SunUniforms) (d : V3) : ℝ :=
  fragAngularDist u d / sunRadiusDenom u

/-- `vec3 upRef = abs(sunDir.y) > 0.99 ? vec3(1,0,0) : vec3(0,1,0)`. -/
noncomputable def fragUpRef (u : SunUniforms) : V3 :=
  if 0.99 < |(fragSunDir u).y| then ⟨1, 0, 0⟩ else ⟨0, 1, 0⟩

/-- `vec3 t1 = normalize(cross(sunDir, upRef))`. -/
noncomputable def fragT1 (u : SunUniforms) : V3 :=
  v3normalize (v3cross (fragSunDir u) (fragUpRef u))

/-- `vec3 t2 = cross(sunDir, t1)`. -/
noncomputable def fragT2 (u : SunUniforms) : V3 :=
  v3cross (fragSunDir u) (fragT1 u)

/-- `vec3 localDir = vec3(dot(dir,t1), dot(dir,t2), dot(dir,sunDir))`. -/
noncomputable def fragLocalDir (u : SunUniforms) (d : V3) : V3 :=
  ⟨v3dot (fragDir d) (fragT1 u), v3dot (fragDir d) (fragT2 u),
    v3dot (fragDir d) (fragSunDir u)⟩

/-- The disc branch (`if (r < 1.05) { … }`): procedural surface with domain
warping, dark spots, limb brightening and the smoothstep edge; `0` outside
the branch. -/
noncomputable def discBright (u : SunUniforms) (d : V3) : ℝ :=
  let r := fragR u d
  if r < 1.05 then
    let nc := v3smul 40 (fragLocalDir u d)
    let warp : V3 :=
      ⟨snoise (v3add (v3smul 0.7 nc) ⟨5.2, 0, 0⟩),
        snoise (v3add (v3smul 0.7 nc) ⟨0, 1.7, 0⟩), 0⟩
    let warped := v3add nc (v3smul 4 warp)
    let n1 := fbm warped
    let n2 := snoise (v3smul 2.5 warped) * 0.5 + 0.5
    let n3 := snoise (v3smul 6 warped) * 0.5 + 0.5
    let surface := 0.55 + 0.35 * n1 + 0.07 * n2 + 0.03 * n3
    let spots := 1 - 0.25 * glslClamp (1 - n1) 0 1 ^ (3 : ℝ)
    let surface2 := surface * spots
    let rim := 1 + r * r * 1.2
    let edge := 1 - glslSmoothstep 0.88 1.02 r
    surface2 * rim * edge
  else 0

/-- The three-layer corona `c1 + c2 + c3`. -/
noncomputable def coronaBright (u : SunUniforms) (d : V3) : ℝ :=
  let r := fragR u d
  Real.exp (-(max (r - 0.95) 0 / 0.6) ^ (1.5 : ℝ)) * 0.8 +
    Real.exp (-(max (r - 0.95) 0 / 2.5) ^ (1.3 : ℝ)) * 0.3 +
    Real.exp (-(max (r - 0.8) 0 / 5)) * 0.1

/-- The coronal-streamer branch (`if (r > 0.85 && r < 12.0) { … }` with the
inner `projLen > 0.001` guard); `0` outside. -/
noncomputable def raysBright (u : SunUniforms) (d : V3) : ℝ :=
  let r := fragR u d
  if 0.85 < r ∧ r < 12 then
    let projVec := v3sub (fragDir d) (v3smul (fragCosAngle u d) (fragSunDir u))
    let projLen := v3len projVec
    if 0.001 < projLen then
      let proj := v3smul (1 / projLen) projVec
      let angle := glslAtan (v3dot proj (fragT2 u)) (v3dot proj (fragT1 u))
      let ray :=
        max (snoise ⟨angle * 3, 0.5, 0⟩) 0 ^ (2 : ℝ) +
          max (snoise ⟨angle * 7, 1.5, 0⟩) 0 ^ (3 : ℝ) * 0.5 +
          max (snoise ⟨angle * 13, 2.5, 0⟩) 0 ^ (4 : ℝ) * 0.3
      let radialFade := Real.exp (-(max (r - 1) 0 / 4) ^ (1.1 : ℝ))
      ray * radialFade * 0.4
    else 0
  else 0

/-- `float glowBright = c1 + c2 + c3` plus the streamer contribution. -/
noncomputable def glowBright (u : SunUniforms) (d : V3) : ℝ :=
  coronaBright u d + raysBright u d

/-- `float totalBright = (discBright + glowBright) * uSunIntensity`. -/
noncomputable def totalBright (u : SunUniforms) (d : V3) : ℝ :=
  (discBright u d + glowBright u d) * u.sunIntensity

/-- The emitted rgb:
`brightnessToColor(discBright * uSunIntensity * 1.5) * uSunColor +
 brightnessToColor(glowBright * uSunIntensity * 2.5) * uSunColor`. -/
noncomputable def sunFragColor (u : SunUniforms) (d : V3) : V3 :=
  v3add (v3mul (brightnessToColor (discBright u d * u.sunIntensity * 1.5)) u.sunColor)
    (v3mul (brightnessToColor (glowBright u d * u.sunIntensity * 2.5)) u.sunColor)

/-- `main()` of `sun.frag.glsl`: the early reject `if (r > 15.0) discard`,
the epsilon reject `if (totalBright < 0.002) discard`, and otherwise
`gl_FragColor = vec4(color, clamp(totalBright, 0.0, 1.0))`. -/
noncomputable def sunFragMain (u : SunUniforms) (d : V3) : Option (V3 × ℝ) :=
  if 15 < fragR u d then none
  else if totalBright u d < 0.002 then none
  else some (sunFragColor u d, glslClamp (totalBright u d) 0 1)

/-! ## Helper lemmas: the twilight fade curve -/

theorem smoothstep_mono (s t : ℚ) (h0 : 0 ≤ s) (hst : s ≤ t) (h1 : t ≤ 1) :
    s * s * (3 - 2 * s) ≤ t * t * (3 - 2 * t) := by
  nlinarith [mul_nonneg h0 (sub_nonneg.mpr hst),
    mul_nonneg (sub_nonneg.mpr hst) (sub_nonneg.mpr h1), sq_nonneg (s - t),
    sq_nonneg (s + t), mul_nonneg (mul_nonneg h0 h0) (sub_nonneg.mpr hst)]

theorem computeStarFade_nonneg (a : ℚ) : 0 ≤ computeStarFade a := by
  unfold computeStarFade
  split_ifs with h1 h2
  · norm_num
  · norm_num
  · push_neg at h1 h2
    have ht0 : 0 < -a / 18 := by linarith
    have ht1 : -a / 18 < 1 := by linarith
    nlinarith [mul_pos ht0 ht0]

theorem computeStarFade_le_one (a : ℚ) : computeStarFade a ≤ 1 := by
  unfold computeStarFade
  split_ifs with h1 h2
  · norm_num
  · norm_num
  · push_neg at h1 h2
    have ht0 : 0 < -a / 18 := by linarith
    have ht1 : -a / 18 < 1 := by linarith
    nlinarith [sq_nonneg (1 - -a / 18), mul_pos ht0 ht0]

theorem computeStarFade_anti (a b : ℚ) (hab : a ≤ b) :
    computeStarFade b ≤ computeStarFade a := by
  rcases le_or_lt 0 b with hb0 | hb0
  · rw [show computeStarFade b = 0 by rw [computeStarFade, if_pos hb0]]
    exact computeStarFade_nonneg a
  · rcases le_or_lt b (-18) with hb18 | hb18
    · rw [show computeStarFade b = 1 by
        rw [computeStarFade, if_neg (by linarith), if_pos hb18]]
      rw [show computeStarFade a = 1 by
        rw [computeStarFade, if_neg (by linarith), if_pos (by linarith)]]
    · have hfb : computeStarFade b = -b / 18 * (-b / 18) * (3 - 2 * (-b / 18)) := by
        rw [computeStarFade, if_neg (by linarith), if_neg (by linarith)]
      rcases le_or_lt a (-18) with ha18 | ha18
      · rw [show computeStarFade a = 1 by
          rw [computeStarFade, if_neg (by linarith), if_pos ha18]]
        exact computeStarFade_le_one b
      · have hfa : computeStarFade a = -a / 18 * (-a / 18) * (3 - 2 * (-a / 18)) := by
          rw [computeStarFade, if_neg (by linarith), if_neg (by linarith)]
        rw [hfa, hfb]
        exact smoothstep_mono (-b / 18) (-a / 18) (by linarith) (by linarith)
          (by linarith)

/-! ## Claim theorems -/

/-- C1: `computeStarFade` returns `0` for altitude ≥ 0, `1` for altitude ≤
−18, the smoothstep `t²(3−2t)` with `t = −altitude/18` strictly in between,
always lies in `[0, 1]`, and is monotonically non-decreasing as the altitude
decreases. -/
theorem computeStarFade_spec (alt : ℚ) :
    (0 ≤ alt → computeStarFade alt = 0) ∧
    (alt ≤ -18 → computeStarFade alt = 1) ∧
    (-18 < alt → alt < 0 →
      computeStarFade alt =
        -alt / 18 * (-alt / 18) * (3 - 2 * (-alt / 18))) ∧
    (0 ≤ computeStarFade alt ∧ computeStarFade alt ≤ 1) ∧
    ∀ b : ℚ, alt ≤ b → computeStarFade b ≤ computeStarFade alt := by
  refine ⟨fun h => ?_, fun h => ?_, fun h1 h2 => ?_,
    ⟨computeStarFade_nonneg alt, computeStarFade_le_one alt⟩,
    fun b hb => computeStarFade_anti alt b hb⟩
  · simp [computeStarFade, h]
  · rw [computeStarFade, if_neg (by linarith), if_pos h]
  · rw [computeStarFade, if_neg (by linarith), if_neg (by linarith)]

/-- C1 witness: the theorem evaluated at representative altitudes
(daytime 5°, deep night −20°, mid-twilight −9°, and a monotonicity
instance). -/
theorem computeStarFade_spec_witness :
    computeStarFade 5 = 0 ∧ computeStarFade (-20) = 1 ∧
    computeStarFade (-9) =
      -(-9 : ℚ) / 18 * (-(-9 : ℚ) / 18) * (3 - 2 * (-(-9 : ℚ) / 18)) ∧
    computeStarFade (-3) ≤ computeStarFade (-9) :=
  ⟨(computeStarFade_spec 5).1 (by norm_num),
    (computeStarFade_spec (-20)).2.1 (by norm_num),
    (computeStarFade_spec (-9)).2.2.1 (by norm_num) (by norm_num),
    (computeStarFade_spec (-9)).2.2.2.2 (-3) (by norm_num)⟩

/-! ## C2: the fade-uniform invariant -/

theorem applyStarFade_invariant (s : LayerState) :
    fadeInvariant (applyStarFade s) := by
  cases hE : s.sunEnabled <;> cases hA : s.autoFadeStars <;>
    simp [fadeInvariant, applyStarFade, setFadeUniforms, expectedFade, hE, hA]

/-- The construction used by the counterexample trace: sun enabled,
auto-fade on, initial altitude 45° (the defaults of the README example),
with a galaxy texture URL configured. -/
def cexOpts : LayerOptions :=
  { sunEnabled := true, autoFadeStars := true, sunAzimuth := 180,
    sunAltitude := 45, sunSize := 100, sunIntensity := 3 / 2,
    hasGalaxyUrl := true }

/-- The counterexample trace: `onAdd` (captures fade 0 for the galaxy
loader callback), `setSunPosition(180, -30)` (star fade becomes 1), the
galaxy texture load completes (galaxy material created with the stale
captured fade 0), then `setSunIntensity(2)` (does not rewrite fades). -/
def cexState : LayerState :=
  setSunIntensity
    (galaxyTextureLoaded (setSunPosition (onAddState cexOpts) 180 (-30))) 2

/-- C2 counterexample: after the public update `setSunIntensity(2)`, with
the sun enabled and auto-fade on and altitude −30 (so the derived fade is
1), the galaxy material's fade uniform still holds the stale value 0
captured by the asynchronous texture-load callback at `onAdd` time. -/
theorem fadeUniform_claim_counterexample :
    cexState.sunEnabled = true ∧ cexState.autoFadeStars = true ∧
    cexState.sunAltitude = -30 ∧ expectedFade cexState = 1 ∧
    cexState.galaxyFadeU = some 0 ∧ ¬ fadeInvariant cexState := by
  have hg : cexState.galaxyFadeU = some 0 := by decide
  have he : expectedFade cexState = 1 := by decide
  refine ⟨by decide, by decide, by decide, he, hg, fun hinv => ?_⟩
  have h0 : (0 : ℚ) = expectedFade cexState := hinv.2 0 (by simp [hg])
  rw [he] at h0
  norm_num at h0

/-- C2 (amended): after `onAdd` and after the fade-writing updates
`setSunPosition` and `setSunEnabled`, the star material's fade uniform and
(when the galaxy material exists) the galaxy material's fade uniform equal
`computeStarFade(altitude)` when the sun is enabled and auto-fade is on, and
exactly 1 otherwise; `setSunIntensity` and `setSunSize` preserve this
invariant but do not re-establish it (the asynchronous galaxy texture load
can create the galaxy material with the stale fade captured at `onAdd`
time); and `setSunEnabled(false)` always forces both fade uniforms to 1,
whatever the current altitude. -/
theorem fadeUniform_spec (opts : LayerOptions) (st : LayerState)
    (az alt v sz : ℚ) (b : Bool) :
    fadeInvariant (onAddState opts) ∧
    fadeInvariant (setSunPosition st az alt) ∧
    fadeInvariant (setSunEnabled st b) ∧
    (fadeInvariant st → fadeInvariant (setSunIntensity st v)) ∧
    (fadeInvariant st → fadeInvariant (setSunSize st sz)) ∧
    ((setSunEnabled st false).starFadeU = 1 ∧
      ∀ g ∈ (setSunEnabled st false).galaxyFadeU, g = 1) := by
  refine ⟨?_, applyStarFade_invariant _, ?_, fun h => h, fun h => h, ?_⟩
  · cases hE : opts.sunEnabled <;> cases hA : opts.autoFadeStars <;>
      simp [fadeInvariant, onAddState, expectedFade, hE, hA]
  · cases b with
    | false => simp [fadeInvariant, setSunEnabled, setFadeUniforms, expectedFade]
    | true => exact applyStarFade_invariant _
  · constructor
    · simp [setSunEnabled, setFadeUniforms]
    · intro g hg
      simp [setSunEnabled, setFadeUniforms] at hg
      exact hg.2.symm

/-- Options for the C2 witness state (no galaxy URL, daytime altitude). -/
def w2opts : LayerOptions :=
  { sunEnabled := true, autoFadeStars := true, sunAzimuth := 180,
    sunAltitude := 10, sunSize := 100, sunIntensity := 3 / 2,
    hasGalaxyUrl := false }

/-- C2 witness: the amended invariant applied along a concrete trace —
`setSunIntensity` preserves the invariant established by `onAdd`, and
`setSunEnabled(false)` forces the star fade to 1 although the altitude is
10 ≥ 0. -/
theorem fadeUniform_spec_witness :
    fadeInvariant (setSunIntensity (onAddState w2opts) 2) ∧
    (setSunEnabled (onAddState w2opts) false).starFadeU = 1 := by
  obtain ⟨h1, _, _, h4, _, h6⟩ :=
    fadeUniform_spec w2opts (onAddState w2opts) 0 0 2 3 true
  exact ⟨h4 h1, h6.1⟩

/-! ## C3/C4: the camera aligner -/

theorem m4invert_mul_cancel (P : Mat4) (hP : P.det ≠ 0) :
    m4invert P * P = 1 := by
  rw [m4invert, if_neg hP, Matrix.smul_mul, Matrix.adjugate_mul, smul_smul,
    inv_mul_cancel₀ hP, one_smul]

theorem zeroTranslation_zero : zeroTranslation 0 = 0 := by
  ext i j
  simp [zeroTranslation]

/-- C3: for every invertible projection `P` and every `MVP = P * V`, the view
matrix computed by `render` — `inverse(P) * MVP` with the translation entries
(rows 0–2 of column 3, Three.js elements 12–14) zeroed — is exactly `V` with
its translation removed: the translation slots are `0` and every other entry
equals the corresponding entry of `V`. -/
theorem cameraAligner_spec (P V : Mat4) (hP : P.det ≠ 0) :
    renderEffectiveView P (P * V) = zeroTranslation V ∧
    (∀ i : Fin 4, i ≠ 3 → renderEffectiveView P (P * V) i 3 = 0) ∧
    (∀ i j : Fin 4, ¬(j = 3 ∧ i ≠ 3) →
      renderEffectiveView P (P * V) i j = V i j) := by
  have hMV : m4invert P * (P * V) = V := by
    rw [← mul_assoc, m4invert_mul_cancel P hP, one_mul]
  have h1 : renderEffectiveView P (P * V) = zeroTranslation V := by
    rw [renderEffectiveView, hMV]
  refine ⟨h1, fun i hi => ?_, fun i j hij => ?_⟩
  · rw [h1]
    simp [zeroTranslation, hi]
  · rw [h1]
    simp only [zeroTranslation, Matrix.of_apply, if_neg hij]

/-- A host view matrix with translation `(5, -7, 11)`: identity rotation and
a nonzero last column. -/
def tMat : Mat4 :=
  Matrix.of fun i j =>
    if i = j then 1
    else if i = 0 ∧ j = 3 then 5
    else if i = 1 ∧ j = 3 then -7
    else if i = 2 ∧ j = 3 then 11
    else 0

/-- C3 witness: the aligner applied with the identity projection and the
translation matrix `tMat`. -/
theorem cameraAligner_spec_witness :
    renderEffectiveView 1 (1 * tMat) = zeroTranslation tMat ∧
    renderEffectiveView 1 (1 * tMat) 0 3 = 0 ∧
    renderEffectiveView 1 (1 * tMat) 1 1 = tMat 1 1 := by
  have hdet : (1 : Mat4).det ≠ 0 := by
    rw [Matrix.det_one]
    norm_num
  have h := cameraAligner_spec 1 tMat hdet
  exact ⟨h.1, h.2.1 0 (by decide), h.2.2 1 1 (by decide)⟩

/-- A post-`onAdd` layer state used as the concrete state of the render
counterexample and witnesses. -/
def probeState : LayerState :=
  onAddState
    { sunEnabled := false, autoFadeStars := true, sunAzimuth := 180,
      sunAltitude := 45, sunSize := 100, sunIntensity := 3 / 2,
      hasGalaxyUrl := false }

/-- C4 counterexample: with the (singular) zero projection matrix, `render`
does **not** skip the frame — the draw call is still issued (Three.js
`invert` silently produces the zero matrix instead of failing), so the
result of the frame is `some` camera matrix, not a skipped draw. -/
theorem render_singular_counterexample :
    Matrix.det (0 : Mat4) = 0 ∧
    (renderStep probeState true 0 0).2 = some 0 := by
  constructor
  · exact Matrix.det_zero ⟨(0 : Fin 4)⟩
  · simp [renderStep, renderCameraProj, renderEffectiveView, m4invert,
      zeroTranslation_zero]

/-- C4 (amended): `render` never crashes and never mutates the layer state,
but it does not skip the draw on a singular projection either: Three.js
`Matrix4.invert` returns the zero matrix when the determinant is 0, so the
frame is drawn with the zero camera projection matrix (which maps every
vertex to the degenerate clip position, producing no visible geometry); the
next frame is attempted normally since nothing was changed. -/
theorem render_singular_spec (st : LayerState) (ready : Bool) (P MVP : Mat4)
    (hP : P.det = 0) :
    (renderStep st ready P MVP).1 = st ∧
    renderStep st true P MVP = (st, some 0) := by
  have hinv : m4invert P = 0 := by rw [m4invert, if_pos hP]
  have hproj : renderCameraProj P MVP = 0 := by
    rw [renderCameraProj, renderEffectiveView, hinv, Matrix.zero_mul,
      zeroTranslation_zero, Matrix.mul_zero]
  constructor
  · cases ready <;> simp [renderStep]
  · simp [renderStep, hproj]

/-- C4 witness: the singular-projection behaviour at the zero matrix and a
concrete layer state. -/
theorem render_singular_spec_witness :
    renderStep probeState true 0 0 = (probeState, some 0) :=
  (render_singular_spec probeState true 0 0 (Matrix.det_zero ⟨(0 : Fin 4)⟩)).2

/-! ## C5/C6/C7: celestial math and star generation -/

/-- C5 counterexample: the reference size 100 maps to an angular radius of
2 degrees (`(100 / 100) * 2.0`), not approximately 1 degree — it is not
even within half a degree of 1. -/
theorem sunSize_reference_counterexample :
    sunSizeAngularRadiusDeg 100 = 2 ∧
    ¬|sunSizeAngularRadiusDeg 100 - 1| < 1 / 2 := by
  constructor
  · norm_num [sunSizeAngularRadiusDeg]
  · rw [show sunSizeAngularRadiusDeg 100 - 1 = 1 by
      norm_num [sunSizeAngularRadiusDeg]]
    norm_num

/-- C5 (amended): `sunSizeToCos` maps the size parameter linearly to
`(size / 100) * 2.0` degrees and returns the cosine of that angle converted
to radians; the reference value 100 maps to an angular radius of exactly
2 degrees. -/
theorem sunSizeToCos_spec (s : ℝ) :
    sunSizeToCos s = Real.cos (s / 100 * 2 * (Real.pi / 180)) ∧
    sunSizeAngularRadiusDeg 100 = 2 :=
  ⟨rfl, by norm_num [sunSizeAngularRadiusDeg]⟩

/-- C7: `sunDirectionFromAngles` returns exactly
`(cos alt · sin az, sin alt, cos alt · cos az)` (angles in radians) and the
result is a unit vector for all inputs. -/
theorem sunDirection_spec (az alt : ℝ) :
    sunDirectionFromAngles az alt =
      (Real.cos (alt * DEG2RAD) * Real.sin (az * DEG2RAD),
        Real.sin (alt * DEG2RAD),
        Real.cos (alt * DEG2RAD) * Real.cos (az * DEG2RAD)) ∧
    (sunDirectionFromAngles az alt).1 ^ 2 +
        (sunDirectionFromAngles az alt).2.1 ^ 2 +
        (sunDirectionFromAngles az alt).2.2 ^ 2 = 1 ∧
    Real.sqrt
        ((sunDirectionFromAngles az alt).1 ^ 2 +
          (sunDirectionFromAngles az alt).2.1 ^ 2 +
          (sunDirectionFromAngles az alt).2.2 ^ 2) = 1 := by
  have hsum :
      (sunDirectionFromAngles az alt).1 ^ 2 +
          (sunDirectionFromAngles az alt).2.1 ^ 2 +
          (sunDirectionFromAngles az alt).2.2 ^ 2 = 1 := by
    simp only [sunDirectionFromAngles]
    linear_combination
      Real.cos (alt * DEG2RAD) ^ 2 * Real.sin_sq_add_cos_sq (az * DEG2RAD) +
        Real.sin_sq_add_cos_sq (alt * DEG2RAD)
  exact ⟨rfl, hsum, by rw [hsum]; exact Real.sqrt_one⟩

/-- C6: the star loop produces exactly `count` points; point `i` is built
from the four draws `u (4i), …, u (4i+3)` by the sampled formulas; every
position is exactly on the unit sphere, every size lies in
`[0.4·s, 1.4·s]`, every opacity in `[0.15, 1]`. -/
theorem generateStars_spec (count : ℕ) (s : ℝ) (u : ℕ → ℝ) (hs : 0 < s)
    (hu : ∀ n, 0 ≤ u n ∧ u n < 1) :
    (generateStars count s u).length = count ∧
    (∀ i, i < count →
      (generateStars count s u).get? i =
        some
          (generateStar s (u (4 * i)) (u (4 * i + 1)) (u (4 * i + 2))
            (u (4 * i + 3)))) ∧
    ∀ p ∈ generateStars count s u,
      p.position.1 ^ 2 + p.position.2.1 ^ 2 + p.position.2.2 ^ 2 = 1 ∧
      0.4 * s ≤ p.size ∧ p.size ≤ 1.4 * s ∧
      0.15 ≤ p.opacity ∧ p.opacity ≤ 1 := by
  refine ⟨by simp [generateStars], fun i hi => ?_, fun p hp => ?_⟩
  · simp [generateStars, List.get?_map, List.get?_range, hi]
  · rw [generateStars, List.mem_map] at hp
    obtain ⟨i, _, rfl⟩ := hp
    obtain ⟨h3a, h3b⟩ := hu (4 * i + 2)
    obtain ⟨h4a, h4b⟩ := hu (4 * i + 3)
    refine ⟨?_, by simp only [generateStar]; nlinarith,
      by simp only [generateStar]; nlinarith,
      by simp only [generateStar]; linarith,
      by simp only [generateStar]; linarith⟩
    simp only [generateStar]
    linear_combination
      Real.sin (Real.arccos (2 * u (4 * i + 1) - 1)) ^ 2 *
          Real.sin_sq_add_cos_sq (u (4 * i) * Real.pi * 2) +
        Real.sin_sq_add_cos_sq (Real.arccos (2 * u (4 * i + 1) - 1))

/-- C6 witness: the constant draw stream `1/2` with two stars of base size
1. -/
theorem generateStars_spec_witness :
    (generateStars 2 1 fun _ => 1 / 2).length = 2 :=
  (generateStars_spec 2 1 (fun _ => 1 / 2) (by norm_num) fun n => by
    norm_num).1

/-! ## C8: the fractal sum -/

/-- C8: `fbm` is exactly the normalised four-octave sum
`(0.5·snoise(p) + 0.25·snoise(p₁) + 0.125·snoise(p₂) + 0.0625·snoise(p₃)) / 0.9375`
with `p₁ = 2.02·p`, `p₂ = 2.03·p₁`, `p₃ = 2.01·p₂`; every per-octave scale
factor lies in `[2.0, 2.03]`, the cumulative frequencies strictly increase,
the amplitudes halve, and the weights sum to the normaliser `0.9375`. -/
theorem fbm_spec (p : V3) :
    fbm p =
      (0.5 * snoise p + 0.25 * snoise (v3smul 2.02 p) +
          0.125 * snoise (v3smul 2.03 (v3smul 2.02 p)) +
          0.0625 * snoise (v3smul 2.01 (v3smul 2.03 (v3smul 2.02 p)))) /
        0.9375 ∧
    ((2 : ℝ) ≤ 2.02 ∧ (2.02 : ℝ) ≤ 2.03) ∧
    ((2 : ℝ) ≤ 2.03 ∧ (2.03 : ℝ) ≤ 2.03) ∧
    ((2 : ℝ) ≤ 2.01 ∧ (2.01 : ℝ) ≤ 2.03) ∧
    ((1 : ℝ) < 2.02 ∧ (2.02 : ℝ) < 2.02 * 2.03 ∧
      (2.02 * 2.03 : ℝ) < 2.02 * 2.03 * 2.01) ∧
    ((0.25 : ℝ) = 0.5 / 2 ∧ (0.125 : ℝ) = 0.25 / 2 ∧
      (0.0625 : ℝ) = 0.125 / 2) ∧
    (0.5 + 0.25 + 0.125 + 0.0625 : ℝ) = 0.9375 :=
  ⟨rfl, by norm_num, by norm_num, by norm_num, by norm_num, by norm_num,
    by norm_num⟩

/-! ## C9/C10: the sun fragment shader -/

theorem arccos_half : Real.arccos (1 / 2) = Real.pi / 3 := by
  rw [← Real.cos_pi_div_three]
  exact Real.arccos_cos (by positivity) (by linarith [Real.pi_pos])

/-- C10: the divisor of the normalised radius is `max(sunRadius, 0.001)`,
hence at least `0.001` and never zero for every uniform setting; when the
cosine uniform clamps to 1 the raw angular radius is exactly `0` and the
divisor is exactly `0.001`. -/
theorem sunRadiusDenom_spec (u : SunUniforms) :
    (0.001 : ℝ) ≤ sunRadiusDenom u ∧ sunRadiusDenom u ≠ 0 ∧
    (∀ d, fragR u d = fragAngularDist u d / sunRadiusDenom u) ∧
    (1 ≤ u.sunAngularRadius →
      sunRadiusRaw u = 0 ∧ sunRadiusDenom u = 0.001) := by
  refine ⟨le_max_right _ _, ?_, fun d => rfl, fun h => ?_⟩
  · have h1 : (0 : ℝ) < 0.001 := by norm_num
    exact ne_of_gt (lt_of_lt_of_le h1 (le_max_right _ _))
  · have hc : glslClamp u.sunAngularRadius (-1) 1 = 1 := by
      rw [glslClamp, max_eq_left (by linarith : (-1 : ℝ) ≤ u.sunAngularRadius),
        min_eq_right h]
    have hr : sunRadiusRaw u = 0 := by
      rw [sunRadiusRaw, hc, Real.arccos_one]
    exact ⟨hr, by rw [sunRadiusDenom, hr]; exact max_eq_right (by norm_num)⟩

/-- Uniforms whose cosine parameter exceeds 1 (as produced by a large enough
size parameter once clamped). -/
noncomputable def w10uniforms : SunUniforms :=
  { sunDirection := ⟨0, 0, 1⟩, sunColor := ⟨1, 1, 1⟩, sunIntensity := 1,
    sunAngularRadius := 2 }

/-- C10 witness: with the cosine uniform 2 (clamping to 1, raw radius 0) the
divisor evaluates to exactly `0.001`. -/
theorem sunRadiusDenom_spec_witness : sunRadiusDenom w10uniforms = 0.001 :=
  ((sunRadiusDenom_spec w10uniforms).2.2.2 (by norm_num [w10uniforms])).2

/-! ### Evaluation helpers for the shader witnesses -/

theorem glslClamp_one : glslClamp (1 : ℝ) (-1) 1 = 1 := by
  rw [glslClamp, max_eq_left (by norm_num : (-1 : ℝ) ≤ 1),
    min_eq_left (le_refl (1 : ℝ))]

theorem glslClamp_neg_one : glslClamp (-1 : ℝ) (-1) 1 = -1 := by
  rw [glslClamp, max_self, min_eq_left (by norm_num : (-1 : ℝ) ≤ 1)]

theorem glslClamp_zero : glslClamp (0 : ℝ) (-1) 1 = 0 := by
  rw [glslClamp, max_eq_left (by norm_num : (-1 : ℝ) ≤ 0),
    min_eq_left (by norm_num : (0 : ℝ) ≤ 1)]

theorem glslClamp_half : glslClamp (1 / 2 : ℝ) (-1) 1 = 1 / 2 := by
  rw [glslClamp, max_eq_left (by norm_num : (-1 : ℝ) ≤ 1 / 2),
    min_eq_left (by norm_num : (1 / 2 : ℝ) ≤ 1)]

theorem v3normalize_unitX : v3normalize ⟨1, 0, 0⟩ = ⟨1, 0, 0⟩ := by
  have h : v3len ⟨1, 0, 0⟩ = 1 := by
    rw [v3len, v3dot]
    norm_num
  rw [v3normalize, h]
  norm_num

theorem v3normalize_unitZ : v3normalize ⟨0, 0, 1⟩ = ⟨0, 0, 1⟩ := by
  have h : v3len ⟨0, 0, 1⟩ = 1 := by
    rw [v3len, v3dot]
    norm_num
  rw [v3normalize, h]
  norm_num

theorem v3normalize_negZ : v3normalize ⟨0, 0, -1⟩ = ⟨0, 0, -1⟩ := by
  have h : v3len ⟨0, 0, -1⟩ = 1 := by
    rw [v3len, v3dot]
    norm_num
  rw [v3normalize, h]
  norm_num

theorem v3len_zero : v3len ⟨0, 0, 0⟩ = 0 := by
  rw [v3len, v3dot]
  norm_num

/-- C9: the sun fragment shader discards whenever the normalised radius
exceeds 15; otherwise it discards whenever the total brightness
`(disc + corona + rays) × intensity` is below `0.002`; otherwise it emits a
fragment whose alpha is the total brightness clamped to `[0, 1]`. -/
theorem sunFragMain_spec (u : SunUniforms) (d : V3) :
    totalBright u d =
      (discBright u d + (coronaBright u d + raysBright u d)) *
        u.sunIntensity ∧
    (15 < fragR u d → sunFragMain u d = none) ∧
    (¬ 15 < fragR u d → totalBright u d < 0.002 → sunFragMain u d = none) ∧
    (¬ 15 < fragR u d → ¬ totalBright u d < 0.002 →
      sunFragMain u d =
        some (sunFragColor u d, glslClamp (totalBright u d) 0 1)) := by
  refine ⟨rfl, fun h => ?_, fun h1 h2 => ?_, fun h1 h2 => ?_⟩
  · rw [sunFragMain, if_pos h]
  · rw [sunFragMain, if_neg h1, if_pos h2]
  · rw [sunFragMain, if_neg h1, if_neg h2]

/-- Witness uniforms for the far-reject branch: zero-size sun (cosine 1,
radius clamps to the `0.001` floor). -/
noncomputable def w9far : SunUniforms :=
  { sunDirection := ⟨0, 0, 1⟩, sunColor := ⟨1, 14 / 15, 2 / 3⟩,
    sunIntensity := 3 / 2, sunAngularRadius := 1 }

/-- Witness uniforms for the epsilon-reject branch: intensity 0. -/
noncomputable def w9zero : SunUniforms :=
  { sunDirection := ⟨0, 0, 1⟩, sunColor := ⟨1, 1, 1⟩, sunIntensity := 0,
    sunAngularRadius := 1 / 2 }

/-- Witness uniforms for the emit branch: radius `π/3`, intensity 1, with
the fragment at the antipode of the sun (`r = 3`). -/
noncomputable def w9emit : SunUniforms :=
  { sunDirection := ⟨0, 0, 1⟩, sunColor := ⟨1, 1, 1⟩, sunIntensity := 1,
    sunAngularRadius := 1 / 2 }

/-- C9 witness: the three shader outcomes at concrete fragments — the
far reject (`r = 500π > 15`), the epsilon reject (intensity 0), and an
emitted fragment at `r = 3` on the corona. -/
theorem sunFragMain_spec_witness :
    sunFragMain w9far ⟨1, 0, 0⟩ = none ∧
    sunFragMain w9zero ⟨0, 0, 1⟩ = none ∧
    (sunFragMain w9emit ⟨0, 0, -1⟩).isSome = true := by
  have hdirX : fragDir ⟨1, 0, 0⟩ = ⟨1, 0, 0⟩ := v3normalize_unitX
  have hdirZ : fragDir ⟨0, 0, 1⟩ = ⟨0, 0, 1⟩ := v3normalize_unitZ
  have hdirN : fragDir ⟨0, 0, -1⟩ = ⟨0, 0, -1⟩ := v3normalize_negZ
  have hsunF : fragSunDir w9far = ⟨0, 0, 1⟩ := v3normalize_unitZ
  have hsunZ : fragSunDir w9zero = ⟨0, 0, 1⟩ := v3normalize_unitZ
  have hsunE : fragSunDir w9emit = ⟨0, 0, 1⟩ := v3normalize_unitZ
  -- far branch: r = (π/2) / 0.001
  have hcosF : fragCosAngle w9far ⟨1, 0, 0⟩ = 0 := by
    rw [fragCosAngle, hdirX, hsunF, v3dot]
    norm_num
  have hdistF : fragAngularDist w9far ⟨1, 0, 0⟩ = Real.pi / 2 := by
    rw [fragAngularDist, hcosF, glslClamp_zero, Real.arccos_zero]
  have hrawF : sunRadiusRaw w9far = 0 := by
    rw [sunRadiusRaw]
    show Real.arccos (glslClamp 1 (-1) 1) = 0
    rw [glslClamp_one, Real.arccos_one]
  have hdenomF : sunRadiusDenom w9far = 0.001 := by
    rw [sunRadiusDenom, hrawF]
    exact max_eq_right (by norm_num)
  have hrF : fragR w9far ⟨1, 0, 0⟩ = Real.pi / 2 / 0.001 := by
    rw [fragR, hdistF, hdenomF]
  have h15F : (15 : ℝ) < fragR w9far ⟨1, 0, 0⟩ := by
    rw [hrF, show (Real.pi / 2 / 0.001 : ℝ) = 500 * Real.pi by ring]
    linarith [Real.pi_gt_three]
  -- zero-intensity branch: r = 0, totalBright = 0
  have hcosZ : fragCosAngle w9zero ⟨0, 0, 1⟩ = 1 := by
    rw [fragCosAngle, hdirZ, hsunZ, v3dot]
    norm_num
  have hdistZ : fragAngularDist w9zero ⟨0, 0, 1⟩ = 0 := by
    rw [fragAngularDist, hcosZ, glslClamp_one, Real.arccos_one]
  have hrZ : fragR w9zero ⟨0, 0, 1⟩ = 0 := by
    rw [fragR, hdistZ, zero_div]
  have htbZ : totalBright w9zero ⟨0, 0, 1⟩ < 0.002 := by
    rw [totalBright, show w9zero.sunIntensity = 0 from rfl, mul_zero]
    norm_num
  -- emit branch: r = 3
  have hcosE : fragCosAngle w9emit ⟨0, 0, -1⟩ = -1 := by
    rw [fragCosAngle, hdirN, hsunE, v3dot]
    norm_num
  have hdistE : fragAngularDist w9emit ⟨0, 0, -1⟩ = Real.pi := by
    rw [fragAngularDist, hcosE, glslClamp_neg_one, Real.arccos_neg_one]
  have hrawE : sunRadiusRaw w9emit = Real.pi / 3 := by
    rw [sunRadiusRaw]
    show Real.arccos (glslClamp (1 / 2) (-1) 1) = Real.pi / 3
    rw [glslClamp_half, arccos_half]
  have hdenomE : sunRadiusDenom w9emit = Real.pi / 3 := by
    rw [sunRadiusDenom, hrawE]
    exact max_eq_left (by linarith [Real.pi_gt_three])
  have hrE : fragR w9emit ⟨0, 0, -1⟩ = 3 := by
    rw [fragR, hdistE, hdenomE]
    field_simp
  have hdiscE : discBright w9emit ⟨0, 0, -1⟩ = 0 := by
    simp only [discBright]
    rw [hrE, if_neg (by norm_num : ¬(3 : ℝ) < 1.05)]
  have hprojE :
      v3sub (fragDir ⟨0, 0, -1⟩)
          (v3smul (fragCosAngle w9emit ⟨0, 0, -1⟩) (fragSunDir w9emit)) =
        ⟨0, 0, 0⟩ := by
    rw [hdirN, hcosE, hsunE, v3smul, v3sub]
    norm_num
  have hraysE : raysBright w9emit ⟨0, 0, -1⟩ = 0 := by
    simp only [raysBright]
    rw [hrE, hprojE, v3len_zero,
      if_pos (by norm_num : (0.85 : ℝ) < 3 ∧ (3 : ℝ) < 12),
      if_neg (by norm_num : ¬(0.001 : ℝ) < 0)]
  have hcoronaE : (0.056 : ℝ) ≤ coronaBright w9emit ⟨0, 0, -1⟩ := by
    simp only [coronaBright]
    rw [hrE]
    have e1 :
        (0 : ℝ) ≤ Real.exp (-(max ((3 : ℝ) - 0.95) 0 / 0.6) ^ (1.5 : ℝ)) * 0.8 := by
      positivity
    have e2 :
        (0 : ℝ) ≤ Real.exp (-(max ((3 : ℝ) - 0.95) 0 / 2.5) ^ (1.3 : ℝ)) * 0.3 := by
      positivity
    have h3 : max ((3 : ℝ) - 0.8) 0 = 2.2 := by
      rw [max_eq_left (by norm_num : (0 : ℝ) ≤ 3 - 0.8)]
      norm_num
    have e3 : (0.56 : ℝ) ≤ Real.exp (-(max ((3 : ℝ) - 0.8) 0 / 5)) := by
      rw [h3]
      linarith [Real.add_one_le_exp (-(2.2 / 5 : ℝ))]
    linarith
  have htotE : ¬ totalBright w9emit ⟨0, 0, -1⟩ < 0.002 := by
    rw [totalBright, glowBright, hdiscE, hraysE,
      show w9emit.sunIntensity = 1 from rfl, mul_one, zero_add, add_zero]
    exact not_lt.mpr (le_trans (by norm_num) hcoronaE)
  refine ⟨(sunFragMain_spec w9far ⟨1, 0, 0⟩).2.1 h15F,
    (sunFragMain_spec w9zero ⟨0, 0, 1⟩).2.2.1 (by rw [hrZ]; norm_num) htbZ, ?_⟩
  rw [(sunFragMain_spec w9emit ⟨0, 0, -1⟩).2.2.2 (by rw [hrE]; norm_num) htotE]
  rfl

end Starfield
